import Mathlib

/-!
# Audio-Extractor: offline-first playback front end

A shallow embedding of `src/static/script.js` (the player, its IndexedDB store and
its queue policy) and of the `fetch` handler of `src/static/sw.js`.

Conventions of the embedding

* The module-level variables of `script.js` (`db`, `songs`, `currentSongIndex`,
  `isPlaying`, `isShuffled`, `repeatMode`, `audio`) are the fields of `State`.
* What the environment decides (whether a `fetch` resolves, whether `audio.play()`
  resolves, what `Math.random()` and `confirm()` return) is an explicit argument.
* A promise that settles is a value of `Promise`: `resolved v` or `rejected`.
* An `async` function is embedded as the function that runs it to completion; where
  the interleaving of two calls matters (`playSong`), the function is split at its
  `await` into the part before it and the part after it.
* DOM rendering (`renderSongList`, `updatePlayerUI`, `updatePlayButtons`) has no effect
  on the modelled state and is left out; `showAlert` is recorded in `State.alerts`.
-/

namespace AudioExtractor

/-! ## Data model -/

/-- Bytes of an audio payload (`Blob` built from a `Uint8Array`). -/
abbrev Blob := List Nat

/-- A song object. The catalog sends the metadata fields; a record of the object store
additionally carries `audioBlob` (absent, i.e. `undefined`, is `none`). -/
structure Song where
  id : String
  title : String
  artist : String
  duration : Nat
  thumbnail_url : Option String
  audioBlob : Option Blob
deriving DecidableEq

/-- Outcome of an awaited promise. -/
inductive Promise (α : Type) where
  | resolved : α → Promise α
  | rejected : Promise α
deriving DecidableEq

/-- The object store `songs` of `MusicPlayerDB` (key path `id`). `available = false`
stands for a database whose requests fail (`request.onerror`). -/
structure Store where
  available : Bool
  records : List Song
deriving DecidableEq

/-- What `audio.src` can be set to by `playSong`. -/
inductive Source where
  | objectURL : Blob → Source
  | url : String → Source
deriving DecidableEq

/-- The shared `<audio>` element, as far as the script reads or writes it. -/
structure Audio where
  src : Option Source
  currentTime : ℚ
deriving DecidableEq

/-- Module-level state of `script.js`. -/
structure State where
  db : Store
  songs : List Song
  currentSongIndex : Int
  isPlaying : Bool
  isShuffled : Bool
  repeatMode : Nat
  audio : Audio
  miniPlayerVisible : Bool
  alerts : List (String × String)
deriving DecidableEq

/-- State at script load: `songs = []`, `currentSongIndex = -1`, flags off. -/
def initialState (db : Store) : State :=
  { db := db, songs := [], currentSongIndex := -1, isPlaying := false,
    isShuffled := false, repeatMode := 0,
    audio := { src := none, currentTime := 0 },
    miniPlayerVisible := false, alerts := [] }

/-! ## IndexedDB wrappers (script.js 34-72) -/

/-- Record written by `store.put` for a key: any record with the same key is replaced. -/
def Store.put (records : List Song) (record : Song) : List Song :=
  records.filter (fun r => r.id != record.id) ++ [record]

/-- `saveToIndexedDB(song, audioBlob)`: `store.put({ ...song, audioBlob })`. -/
def saveToIndexedDB (db : Store) (song : Song) (audioBlob : Option Blob) : Promise Store :=
  if db.available then
    .resolved { db with records := Store.put db.records { song with audioBlob := audioBlob } }
  else .rejected

/-- `getFromIndexedDB(songId)`: `store.get(songId)`, `undefined` (here `none`) when absent. -/
def getFromIndexedDB (db : Store) (songId : String) : Promise (Option Song) :=
  if db.available then .resolved (db.records.find? (fun r => r.id == songId))
  else .rejected

/-- `deleteFromIndexedDB(songId)`: `store.delete(songId)`. -/
def deleteFromIndexedDB (db : Store) (songId : String) : Promise Store :=
  if db.available then
    .resolved { db with records := db.records.filter (fun r => r.id != songId) }
  else .rejected

/-- `getAllFromIndexedDB()`: `store.getAll()`. -/
def getAllFromIndexedDB (db : Store) : Promise (List Song) :=
  if db.available then .resolved db.records else .rejected

/-! ## Alerts and URLs -/

/-- `showAlert(message, type)`, recorded in the log of notices. -/
def showAlert (message type : String) (st : State) : State :=
  { st with alerts := st.alerts ++ [(message, type)] }

/-- The address `/api/songs/${song.id}/audio` (script.js 191). -/
def streamURL (id : String) : String := "/api/songs/" ++ id ++ "/audio"

/-- The address `/api/songs/${song.id}/blob` (script.js 107). -/
def blobURL (id : String) : String := "/api/songs/" ++ id ++ "/blob"

/-! ## cacheAudioForOffline (script.js 105-122) -/

/-- JSON body answered by the blob endpoint. -/
structure BlobData where
  success : Bool
  audio : Option String
deriving DecidableEq

/-- `cacheAudioForOffline(song)`. `fetchBlob` is the network (the awaited
`fetch(url)` followed by `response.json()`), `atob` the base64 decoder, which yields
the character codes of the binary string or throws (`none`). Every failure is caught
and logged, so the result is only the store. -/
def cacheAudioForOffline (atob : String → Option (List Nat))
    (fetchBlob : String → Promise BlobData) (song : Song) (db : Store) : Store :=
  match fetchBlob (blobURL song.id) with
  | .rejected => db
  | .resolved data =>
    match data.audio with
    | none => db
    | some a =>
      if data.success && a != "" then
        match atob a with
        | none => db
        | some binaryString =>
          let bytes : Blob := binaryString.map (fun c => c % 256)
          match saveToIndexedDB db song (some bytes) with
          | .resolved db1 => db1
          | .rejected => db
      else db

/-! ## playSong (script.js 174-201) -/

/-- Lines 187-192: the source chosen from the result of the store lookup. -/
def resolveSource (cached : Option Song) (song : Song) : Source :=
  match cached with
  | some c =>
    match c.audioBlob with
    | some blob => Source.objectURL blob
    | none => Source.url (streamURL song.id)
  | none => Source.url (streamURL song.id)

/-- Lines 175-182 of `playSong(index)`, up to the `await` of the store lookup: the
index check, the assignment of `currentSongIndex` and the song read from the list.
`none` is the early `return`. -/
def playSongStart (index : Int) (st : State) : Option (Song × State) :=
  if index < 0 ∨ index ≥ st.songs.length then none
  else
    match st.songs[index.toNat]? with
    | none => none
    | some song => some (song, { st with currentSongIndex := index, miniPlayerVisible := true })

/-- Lines 185-200 of `playSong`, from the point where the store lookup for `song`
settles: the source is assigned, then `audio.play()` is awaited (`playOk` tells
whether it resolves). A rejected lookup or a rejected `play()` lands in `catch`. -/
def playSongResume (playOk : Bool) (song : Song) (st : State) : State :=
  match getFromIndexedDB st.db song.id with
  | .rejected => showAlert "Failed to play song" "error" st
  | .resolved cached =>
    let st1 := { st with audio := { st.audio with src := some (resolveSource cached song) } }
    if playOk then { st1 with isPlaying := true }
    else showAlert "Failed to play song" "error" st1

/-- `playSong(index)` run to completion without another task in between. -/
def playSong (playOk : Bool) (index : Int) (st : State) : State :=
  match playSongStart index st with
  | none => st
  | some (song, st1) => playSongResume playOk song st1

/-! ## Play / pause, queue policy (script.js 226-284) -/

/-- `togglePlay()`. `audio.pause()` and `audio.play()` reach `isPlaying` through the
`pause` and `play` listeners (lines 447-455). -/
def togglePlay (playOk : Bool) (st : State) : State :=
  if st.currentSongIndex = -1 ∧ st.songs.length > 0 then playSong playOk 0 st
  else if st.isPlaying then { st with isPlaying := false }
  else if playOk then { st with isPlaying := true }
  else st

/-- `playNext()`. `r` is the value of `Math.floor(Math.random() * songs.length)`;
`%` is the remainder of JavaScript, which truncates (`Int.tmod`). -/
def playNext (r : Nat) (playOk : Bool) (st : State) : State :=
  if st.songs.length = 0 then st
  else
    let nextIndex : Int :=
      if st.isShuffled then (r : Int)
      else Int.tmod (st.currentSongIndex + 1) st.songs.length
    playSong playOk nextIndex st

/-- `playPrevious()`. -/
def playPrevious (r : Nat) (playOk : Bool) (st : State) : State :=
  if st.songs.length = 0 then st
  else if st.audio.currentTime > 3 then
    { st with audio := { st.audio with currentTime := 0 } }
  else
    let prevIndex : Int :=
      if st.isShuffled then (r : Int)
      else Int.tmod (st.currentSongIndex - 1 + st.songs.length) st.songs.length
    playSong playOk prevIndex st

/-- `toggleShuffle()`. -/
def toggleShuffle (st : State) : State := { st with isShuffled := !st.isShuffled }

/-- `toggleRepeat()`. -/
def toggleRepeat (st : State) : State := { st with repeatMode := (st.repeatMode + 1) % 3 }

/-- The `ended` listener of the audio element (script.js 457-467). -/
def onEnded (r : Nat) (playOk : Bool) (st : State) : State :=
  if st.repeatMode = 2 then
    { st with audio := { st.audio with currentTime := 0 },
              isPlaying := if playOk then true else st.isPlaying }
  else if st.repeatMode = 1 ∨ st.currentSongIndex < (st.songs.length : Int) - 1 then
    playNext r playOk st
  else { st with isPlaying := false }

/-! ## loadSongs (script.js 80-103) -/

/-- JSON body answered by `/api/songs`. -/
structure CatalogData where
  success : Bool
  songs : List Song
deriving DecidableEq

/-- The loop of lines 89-94. Each song is looked up in the store and, when it has no
record or no payload, `cacheAudioForOffline` is started for it; the started task is
run at once (it only writes the record of its own identifier). The result is the
store and whether a lookup rejected, which leaves the loop by the `catch`. -/
def cachePass (atob : String → Option (List Nat)) (fetchBlob : String → Promise BlobData) :
    List Song → Store → Store × Bool
  | [], db => (db, false)
  | song :: rest, db =>
    match getFromIndexedDB db song.id with
    | .rejected => (db, true)
    | .resolved cached =>
      let missing : Bool :=
        match cached with
        | none => true
        | some c => c.audioBlob.isNone
      cachePass atob fetchBlob rest
        (if missing then cacheAudioForOffline atob fetchBlob song db else db)

/-- The `catch` block of `loadSongs` (lines 96-102). The second component tells
whether the promise of `loadSongs` rejects (here: `getAllFromIndexedDB` rejected). -/
def loadSongsCatch (st : State) : State × Bool :=
  match getAllFromIndexedDB st.db with
  | .rejected => (st, true)
  | .resolved cached =>
    if cached.length > 0 then ({ st with songs := cached }, false) else (st, false)

/-- `loadSongs()`. `fetchCatalog` is the outcome of `fetch('/api/songs')` followed by
`response.json()`. The result is the state and whether the returned promise rejects. -/
def loadSongs (atob : String → Option (List Nat)) (fetchBlob : String → Promise BlobData)
    (fetchCatalog : Promise CatalogData) (st : State) : State × Bool :=
  match fetchCatalog with
  | .rejected => loadSongsCatch st
  | .resolved data =>
    if data.success then
      let st1 := { st with songs := data.songs }
      let pass := cachePass atob fetchBlob st1.songs st1.db
      let st2 := { st1 with db := pass.1 }
      if pass.2 then loadSongsCatch st2 else (st2, false)
    else (st, false)

/-! ## deleteSong (script.js 407-427) -/

/-- The `Response` a resolved `fetch` yields, as far as its status line. -/
structure HttpResponse where
  status : Nat
deriving DecidableEq

/-- `deleteSong(songId)`. `confirmed` is the answer of `confirm(...)`; `fetchDelete` is
the outcome of `fetch('/api/songs/<id>', { method: 'DELETE' })`, which rejects on a
network error only and resolves with the response for every HTTP status. -/
def deleteSong (confirmed : Bool) (fetchDelete : Promise HttpResponse) (songId : String)
    (st : State) : State :=
  if !confirmed then st
  else
    match fetchDelete with
    | .rejected => showAlert "Failed to delete song" "error" st
    | .resolved _ =>
      match deleteFromIndexedDB st.db songId with
      | .rejected => showAlert "Failed to delete song" "error" st
      | .resolved db1 =>
        let st1 := { st with db := db1, songs := st.songs.filter (fun s => s.id != songId) }
        let st2 :=
          if st1.currentSongIndex ≥ 0 ∧
              (st1.songs[st1.currentSongIndex.toNat]?).map Song.id = some songId then
            { st1 with isPlaying := false, currentSongIndex := -1, miniPlayerVisible := false }
          else st1
        showAlert "Song removed" "success" st2

/-! ## Interleaving of `playSong` calls

Between the start of a `playSong` call and the moment its store lookup settles, other
tasks may run. `Tasks.pending` holds, in the order the calls were issued, the song each
suspended call captured in its local `song`. -/

/-- The session together with the suspended `playSong` calls. -/
structure Tasks where
  st : State
  pending : List Song
deriving DecidableEq

/-- What the event loop runs next: a new `playSong(index)` up to its `await`, or the
continuation of the `k`-th suspended call. -/
inductive Event where
  | select : Int → Event
  | settle : Nat → Bool → Event
deriving DecidableEq

/-- One turn of the event loop. -/
def step (a : Tasks) : Event → Tasks
  | .select index =>
    match playSongStart index a.st with
    | none => a
    | some (song, st1) => { st := st1, pending := a.pending ++ [song] }
  | .settle k playOk =>
    match a.pending[k]? with
    | none => a
    | some song => { st := playSongResume playOk song a.st, pending := a.pending.eraseIdx k }

/-- A sequence of turns. -/
def run (a : Tasks) (es : List Event) : Tasks := es.foldl step a

/-- Lookups settle in the order their calls were issued. -/
def inIssueOrder : List Event → Bool
  | [] => true
  | .select _ :: es => inIssueOrder es
  | .settle k _ :: es => k == 0 && inIssueOrder es

/-! ## The `fetch` handler of the service worker (sw.js 32-65) -/

namespace ServiceWorker

/-- `String.prototype.includes`. -/
def includes (s t : String) : Bool := decide (t.data <:+: s.data)

/-- `String.prototype.endsWith`. -/
def endsWith (s t : String) : Bool := decide (t.data <:+ s.data)

/-- The fields of `event.request` the handler reads. -/
structure Request where
  url : String
  method : String
  mode : String
deriving DecidableEq

/-- The fields of a `Response` the handler reads. -/
structure Response where
  status : Nat
  type : String
  body : String
deriving DecidableEq

/-- Cache storage: responses keyed by request URL. -/
abbrev Cache := List (String × Response)

/-- What the handler did with a `fetch` event. -/
inductive Handled where
  | notIntercepted : Handled
  | respondWith : Option Response → Cache → Handled
deriving DecidableEq

/-- The `fetch` listener. `net` is the outcome of `fetch(event.request)`. In
`respondWith response cache`, `response` is what the page receives (`none` for
`undefined`) and `cache` the cache storage afterwards. -/
def onFetch (cache : Cache) (net : Promise Response) (request : Request) : Handled :=
  if includes request.url "/api/songs/" && includes request.url "/audio" then
    .notIntercepted
  else
    match cache.lookup request.url with
    | some response => .respondWith (some response) cache
    | none =>
      match net with
      | .rejected =>
        if request.mode = "navigate" then .respondWith (cache.lookup "/") cache
        else .respondWith none cache
      | .resolved response =>
        if response.status ≠ 200 ∨ response.type ≠ "basic" then
          .respondWith (some response) cache
        else if request.method = "GET" ∧
            (includes request.url "/static/" || endsWith request.url "/") then
          .respondWith (some response) ((request.url, response) :: cache)
        else .respondWith (some response) cache

end ServiceWorker

/-! ## Interleaving: resolved source and invariant -/

/-- The source `playSong` resolves for `song` against the records of `db`. -/
def sourceFor (db : Store) (song : Song) : Source :=
  resolveSource (db.records.find? (fun r => r.id == song.id)) song

/-- Invariant of the runs in which lookups settle in issue order, over a fixed catalog
and an available store: either nothing was ever selected, or `currentSongIndex`
designates a song and that song is the one the latest suspended call captured, or, when
no call is suspended, the one whose source is applied. -/
def Settled (db : Store) (songs : List Song) (a : Tasks) : Prop :=
  a.st.db = db ∧ a.st.songs = songs ∧
  ((a.st.currentSongIndex = -1 ∧ a.pending = []) ∨
   (0 ≤ a.st.currentSongIndex ∧
    ∃ song, songs[a.st.currentSongIndex.toNat]? = some song ∧
      ((a.pending = [] ∧ a.st.audio.src = some (sourceFor db song)) ∨
       a.pending.getLast? = some song)))

/-! ## Sample data -/

/-- Song `A` as the catalog lists it. -/
def songA : Song :=
  { id := "a", title := "A", artist := "x", duration := 10, thumbnail_url := none,
    audioBlob := none }

/-- Song `B` as the catalog lists it. -/
def songB : Song := { songA with id := "b", title := "B" }

/-- Song `C` as the catalog lists it. -/
def songC : Song := { songA with id := "c", title := "C" }

/-- A session over the catalog `[A, B, C]` with the given current index; the store
holds a record with a payload for `A` and a record without one for `B`. -/
def sampleState (current : Int) : State :=
  { initialState { available := true,
                   records := [{ songA with audioBlob := some [73, 68, 51] }, songB] } with
    songs := [songA, songB, songC], currentSongIndex := current }

/-- The startup of a session whose catalog is `[A]`, followed by `playSong(0)`. -/
def startedOnA : State :=
  playSong true 0
    (loadSongs (fun _ => none) (fun _ => .rejected)
      (.resolved { success := true, songs := [songA] })
      (initialState { available := true, records := [] })).1

/-! ## Lemmas on the store and on `playSong` -/

theorem find_put_self (records : List Song) (record : Song) :
    (Store.put records record).find? (fun r => r.id == record.id) = some record := by
  unfold Store.put
  rw [List.find?_append]
  have h : (records.filter (fun r => r.id != record.id)).find? (fun r => r.id == record.id)
      = none := by
    rw [List.find?_eq_none]
    intro x hx
    have := (List.mem_filter.mp hx).2
    simpa using this
  simp [h]

theorem playSongStart_valid (st : State) (i : Int) (song : Song)
    (h0 : 0 ≤ i) (hi : i < st.songs.length) (hsong : st.songs[i.toNat]? = some song) :
    playSongStart i st
      = some (song, { st with currentSongIndex := i, miniPlayerVisible := true }) := by
  unfold playSongStart
  rw [if_neg (by omega)]
  simp [hsong]

theorem playSong_valid (st : State) (i : Int) (playOk : Bool) (song : Song)
    (h0 : 0 ≤ i) (hi : i < st.songs.length) (hsong : st.songs[i.toNat]? = some song) :
    playSong playOk i st
      = playSongResume playOk song
          { st with currentSongIndex := i, miniPlayerVisible := true } := by
  unfold playSong
  rw [playSongStart_valid st i song h0 hi hsong]

theorem playSongResume_src (playOk : Bool) (song : Song) (st : State) (cached : Option Song)
    (h : getFromIndexedDB st.db song.id = .resolved cached) :
    (playSongResume playOk song st).audio.src = some (resolveSource cached song) := by
  unfold playSongResume
  rw [h]
  cases playOk <;> simp [showAlert]

theorem playSongResume_index (playOk : Bool) (song : Song) (st : State) :
    (playSongResume playOk song st).currentSongIndex = st.currentSongIndex := by
  unfold playSongResume
  cases getFromIndexedDB st.db song.id <;> cases playOk <;> simp [showAlert]

theorem playSong_src (st : State) (i : Int) (playOk : Bool) (song : Song)
    (h0 : 0 ≤ i) (hi : i < st.songs.length) (hsong : st.songs[i.toNat]? = some song)
    (cached : Option Song) (h : getFromIndexedDB st.db song.id = .resolved cached) :
    (playSong playOk i st).audio.src = some (resolveSource cached song) := by
  rw [playSong_valid st i playOk song h0 hi hsong]
  exact playSongResume_src playOk song _ cached h

/-! ## C1 -/

/-- C1. For a valid index `i` with `songs[i] = song`: when the store lookup for
`song.id` yields a record with an audio payload, `playSong(i)` sets `audio.src` to the
object URL of that payload and not to the stream URL; when the lookup yields no record
or a record without payload, `audio.src` is the stream URL `/api/songs/<id>/audio`; and
after `cacheAudioForOffline` has saved a payload for the song, `playSong(i)` plays that
payload. -/
theorem playSong_prefers_local_payload (st : State) (i : Int) (playOk : Bool) (song : Song)
    (h0 : 0 ≤ i) (hi : i < st.songs.length) (hsong : st.songs[i.toNat]? = some song) :
    (∀ c blob, getFromIndexedDB st.db song.id = .resolved (some c) → c.audioBlob = some blob →
        (playSong playOk i st).audio.src = some (Source.objectURL blob) ∧
        (playSong playOk i st).audio.src ≠ some (Source.url (streamURL song.id))) ∧
    (∀ cached, getFromIndexedDB st.db song.id = .resolved cached →
        (cached = none ∨ ∃ c, cached = some c ∧ c.audioBlob = none) →
        (playSong playOk i st).audio.src = some (Source.url (streamURL song.id))) ∧
    (∀ (atob : String → Option (List Nat)) (fetchBlob : String → Promise BlobData)
        (a : String) (binaryString : List Nat),
        st.db.available = true →
        fetchBlob (blobURL song.id) = .resolved { success := true, audio := some a } →
        a ≠ "" → atob a = some binaryString →
        (playSong playOk i
            { st with db := cacheAudioForOffline atob fetchBlob song st.db }).audio.src
          = some (Source.objectURL (binaryString.map (fun c => c % 256)))) := by
  refine ⟨?_, ?_, ?_⟩
  · intro c blob hget hblob
    have hsrc : (playSong playOk i st).audio.src = some (Source.objectURL blob) := by
      rw [playSong_src st i playOk song h0 hi hsong (some c) hget]
      simp [resolveSource, hblob]
    exact ⟨hsrc, by rw [hsrc]; simp⟩
  · intro cached hget hc
    rw [playSong_src st i playOk song h0 hi hsong cached hget]
    rcases hc with rfl | ⟨c, rfl, hnone⟩
    · rfl
    · simp [resolveSource, hnone]
  · intro atob fetchBlob a binaryString hav hfetch ha hatob
    have hdb : cacheAudioForOffline atob fetchBlob song st.db
        = Store.mk st.db.available (Store.put st.db.records
            { song with audioBlob := some (binaryString.map (fun c => c % 256)) }) := by
      simp [cacheAudioForOffline, hfetch, ha, hatob, saveToIndexedDB, hav]
    have hget : getFromIndexedDB (cacheAudioForOffline atob fetchBlob song st.db) song.id
        = .resolved (some { song with
            audioBlob := some (binaryString.map (fun c => c % 256)) }) := by
      rw [hdb]
      unfold getFromIndexedDB
      simp only [hav, if_true]
      exact congrArg Promise.resolved
        (find_put_self st.db.records
          { song with audioBlob := some (binaryString.map (fun c => c % 256)) })
    rw [playSong_src { st with db := cacheAudioForOffline atob fetchBlob song st.db }
        i playOk song h0 hi hsong _ hget]
    rfl

/-- C1 at the sample session: `A` is cached, so `playSong(0)` plays the stored payload. -/
theorem playSong_prefers_local_payload_witness :
    (playSong true 0 (sampleState (-1))).audio.src = some (Source.objectURL [73, 68, 51]) :=
  ((playSong_prefers_local_payload (sampleState (-1)) 0 true songA
      (by decide) (by decide) (by rfl)).1
    { songA with audioBlob := some [73, 68, 51] } [73, 68, 51] (by rfl) (by rfl)).1

/-! ## Queue policy: C2, C7, C8, C9 -/

theorem playSong_index (st : State) (i : Int) (playOk : Bool)
    (h0 : 0 ≤ i) (hi : i < st.songs.length) :
    (playSong playOk i st).currentSongIndex = i := by
  have hlt : i.toNat < st.songs.length := by omega
  have hsong : st.songs[i.toNat]? = some (st.songs[i.toNat]) := List.getElem?_eq_getElem hlt
  rw [playSong_valid st i playOk _ h0 hi hsong, playSongResume_index]

theorem playNext_unshuffled (st : State) (r : Nat) (playOk : Bool)
    (h0 : -1 ≤ st.currentSongIndex) (hn : 0 < st.songs.length) (hsh : st.isShuffled = false) :
    playNext r playOk st
      = playSong playOk ((st.currentSongIndex + 1) % (st.songs.length : Int)) st := by
  unfold playNext
  rw [if_neg (by omega)]
  simp only [hsh, Bool.false_eq_true, if_false]
  rw [Int.tmod_eq_emod (by omega) (by omega)]

/-- C2, as stated, fails: in the catalog `[A, B, C]` with shuffle off, repeat off and
`currentSongIndex = 2` (the last index), `playNext()` selects index 0 and
`currentSongIndex` becomes 0. -/
theorem playNext_wraps_at_last_index :
    (sampleState 2).songs ≠ [] ∧ (sampleState 2).isShuffled = false ∧
    (sampleState 2).repeatMode = 0 ∧
    (sampleState 2).currentSongIndex = ((sampleState 2).songs.length : Int) - 1 ∧
    (playNext 0 true (sampleState 2)).currentSongIndex = 0 ∧
    (playNext 0 true (sampleState 2)).currentSongIndex ≠ (sampleState 2).currentSongIndex := by
  refine ⟨by decide, by decide, by decide, by decide, ?_, ?_⟩ <;>
    rw [playNext_unshuffled _ _ _ (by decide) (by decide) (by decide)] <;>
    rw [playSong_index _ _ _ (by decide) (by decide)] <;> decide

/-- C2, amended. At the last index with repeat off, the `ended` listener reports the
queue exhausted: it selects nothing, leaves `currentSongIndex` (and the source)
unchanged and only clears `isPlaying`. `playNext()` itself, as called by a skip or by
the media-session `nexttrack` command, wraps with shuffle off: it selects index 0. -/
theorem ended_exhausts_playNext_wraps (st : State) (r : Nat) (playOk : Bool)
    (hne : st.songs ≠ [])
    (hlast : st.currentSongIndex = (st.songs.length : Int) - 1) :
    (st.repeatMode = 0 → onEnded r playOk st = { st with isPlaying := false }) ∧
    (st.isShuffled = false →
      playNext r playOk st = playSong playOk 0 st ∧
      (playNext r playOk st).currentSongIndex = 0) := by
  have hn : 0 < st.songs.length := List.length_pos.mpr hne
  constructor
  · intro hrep
    unfold onEnded
    rw [if_neg (by omega), if_neg (by omega)]
  · intro hsh
    have h : playNext r playOk st = playSong playOk 0 st := by
      rw [playNext_unshuffled st r playOk (by omega) hn hsh, hlast]
      simp
    exact ⟨h, by rw [h]; exact playSong_index st 0 playOk (by omega) (by omega)⟩

/-- C2 amended, at the catalog `[A, B, C]` with `currentSongIndex = 2`. -/
theorem ended_exhausts_playNext_wraps_witness :
    onEnded 0 true (sampleState 2) = { sampleState 2 with isPlaying := false } :=
  (ended_exhausts_playNext_wraps (sampleState 2) 0 true (by decide) (by decide)).1 (by decide)

/-- C7. With shuffle off, a current index `c` with `0 ≤ c < n` and not (repeat off and
`c = n - 1`), `playNext()` selects index `(c + 1) mod n`, and so does the `ended`
listener in repeat modes 0 and 1 (in mode 2 it restarts the track instead of
advancing); with repeat mode 1 at the last index both select index 0. -/
theorem advance_steps_modulo (st : State) (r : Nat) (playOk : Bool)
    (h0 : 0 ≤ st.currentSongIndex) (hc : st.currentSongIndex < st.songs.length)
    (hsh : st.isShuffled = false)
    (hex : ¬ (st.repeatMode = 0 ∧ st.currentSongIndex = (st.songs.length : Int) - 1)) :
    playNext r playOk st
      = playSong playOk ((st.currentSongIndex + 1) % (st.songs.length : Int)) st ∧
    (playNext r playOk st).currentSongIndex
      = (st.currentSongIndex + 1) % (st.songs.length : Int) ∧
    (st.repeatMode = 0 ∨ st.repeatMode = 1 →
      onEnded r playOk st
        = playSong playOk ((st.currentSongIndex + 1) % (st.songs.length : Int)) st) ∧
    (st.repeatMode = 1 → st.currentSongIndex = (st.songs.length : Int) - 1 →
      (playNext r playOk st).currentSongIndex = 0 ∧
      (onEnded r playOk st).currentSongIndex = 0) := by
  have hn : 0 < st.songs.length := by omega
  have hnext := playNext_unshuffled st r playOk (by omega) hn hsh
  have hlo : 0 ≤ (st.currentSongIndex + 1) % (st.songs.length : Int) :=
    Int.emod_nonneg _ (by omega)
  have hhi : (st.currentSongIndex + 1) % (st.songs.length : Int) < st.songs.length :=
    Int.emod_lt_of_pos _ (by omega)
  have hidx : (playNext r playOk st).currentSongIndex
      = (st.currentSongIndex + 1) % (st.songs.length : Int) := by
    rw [hnext]; exact playSong_index st _ playOk hlo hhi
  have hended : st.repeatMode = 0 ∨ st.repeatMode = 1 →
      onEnded r playOk st
        = playSong playOk ((st.currentSongIndex + 1) % (st.songs.length : Int)) st := by
    intro h2
    unfold onEnded
    rw [if_neg (by omega), if_pos (by omega), hnext]
  refine ⟨hnext, hidx, hended, ?_⟩
  intro h1 hlast
  have hz : (st.currentSongIndex + 1) % (st.songs.length : Int) = 0 := by
    rw [hlast]; simp
  refine ⟨by rw [hidx, hz], ?_⟩
  rw [hended (by omega), hz]
  exact playSong_index st 0 playOk (by omega) (by omega)

/-- C7 at the catalog `[A, B, C]`, repeat-queue at the last index: the `ended` listener
selects index 0. -/
theorem advance_steps_modulo_witness :
    (onEnded 0 true { sampleState 2 with repeatMode := 1 }).currentSongIndex = 0 :=
  ((advance_steps_modulo { sampleState 2 with repeatMode := 1 } 0 true
      (by decide) (by decide) (by decide) (by decide)).2.2.2
    (by decide) (by decide)).2

theorem playPrevious_unshuffled (st : State) (r : Nat) (playOk : Bool)
    (h0 : 0 ≤ st.currentSongIndex) (hn : 0 < st.songs.length)
    (hpos : st.audio.currentTime ≤ 3) (hsh : st.isShuffled = false) :
    playPrevious r playOk st
      = playSong playOk
          ((st.currentSongIndex - 1 + (st.songs.length : Int)) % (st.songs.length : Int))
          st := by
  unfold playPrevious
  rw [if_neg (by omega), if_neg (not_lt.mpr hpos)]
  simp only [hsh, Bool.false_eq_true, if_false]
  rw [Int.tmod_eq_emod (by omega) (by omega)]

/-- C8. With shuffle off, a current index `c` with `0 ≤ c < n` and a playback position
of at most 3 seconds, `playPrevious()` selects index `(c - 1 + n) mod n`; that index is
`c - 1` when `c > 0`, `n - 1` when `c = 0`, and always a valid index. -/
theorem playPrevious_steps_back (st : State) (r : Nat) (playOk : Bool)
    (h0 : 0 ≤ st.currentSongIndex) (hc : st.currentSongIndex < st.songs.length)
    (hpos : st.audio.currentTime ≤ 3) (hsh : st.isShuffled = false) :
    playPrevious r playOk st
      = playSong playOk
          ((st.currentSongIndex - 1 + (st.songs.length : Int)) % (st.songs.length : Int))
          st ∧
    (playPrevious r playOk st).currentSongIndex
      = (st.currentSongIndex - 1 + (st.songs.length : Int)) % (st.songs.length : Int) ∧
    (0 < st.currentSongIndex →
      (st.currentSongIndex - 1 + (st.songs.length : Int)) % (st.songs.length : Int)
        = st.currentSongIndex - 1) ∧
    (st.currentSongIndex = 0 →
      (st.currentSongIndex - 1 + (st.songs.length : Int)) % (st.songs.length : Int)
        = (st.songs.length : Int) - 1) ∧
    0 ≤ (st.currentSongIndex - 1 + (st.songs.length : Int)) % (st.songs.length : Int) ∧
    (st.currentSongIndex - 1 + (st.songs.length : Int)) % (st.songs.length : Int)
      < st.songs.length := by
  have hn : 0 < st.songs.length := by omega
  have hprev := playPrevious_unshuffled st r playOk h0 hn hpos hsh
  have hlo : 0 ≤ (st.currentSongIndex - 1 + (st.songs.length : Int))
      % (st.songs.length : Int) := Int.emod_nonneg _ (by omega)
  have hhi : (st.currentSongIndex - 1 + (st.songs.length : Int)) % (st.songs.length : Int)
      < st.songs.length := Int.emod_lt_of_pos _ (by omega)
  refine ⟨hprev, ?_, ?_, ?_, hlo, hhi⟩
  · rw [hprev]; exact playSong_index st _ playOk hlo hhi
  · intro hpos1
    rw [Int.add_emod_self]
    exact Int.emod_eq_of_lt (by omega) (by omega)
  · intro hz
    rw [hz]
    exact Int.emod_eq_of_lt (by omega) (by omega)

/-- C8 at the catalog `[A, B, C]`, current index 2 (`C`), position 0: `playPrevious()`
selects index 1, which is `B`. -/
theorem playPrevious_steps_back_witness :
    (playPrevious 0 true (sampleState 2)).currentSongIndex = 1 ∧
    (sampleState 2).songs[1]? = some songB :=
  ⟨(playPrevious_steps_back (sampleState 2) 0 true (by decide) (by decide)
      (by simp [sampleState, initialState]) (by decide)).2.1, by decide⟩

/-- C9. In a non-empty catalog, with a playback position strictly above 3 seconds,
`playPrevious()` only sets the playback position to 0, whatever the shuffle flag, the
repeat mode and the current index are: `currentSongIndex`, the audio source, the
catalog and every other part of the state are unchanged, so no song is selected. -/
theorem playPrevious_restarts_track (st : State) (r : Nat) (playOk : Bool)
    (hne : st.songs ≠ []) (hpos : st.audio.currentTime > 3) :
    playPrevious r playOk st = { st with audio := { st.audio with currentTime := 0 } } ∧
    (playPrevious r playOk st).audio.currentTime = 0 ∧
    (playPrevious r playOk st).currentSongIndex = st.currentSongIndex ∧
    (playPrevious r playOk st).audio.src = st.audio.src := by
  have hn : 0 < st.songs.length := List.length_pos.mpr hne
  have h : playPrevious r playOk st
      = { st with audio := { st.audio with currentTime := 0 } } := by
    unfold playPrevious
    rw [if_neg (by omega), if_pos hpos]
  rw [h]
  exact ⟨rfl, rfl, rfl, rfl⟩

/-- C9 at the catalog `[A, B, C]` with shuffle on, current index 1 and position 5 s. -/
theorem playPrevious_restarts_track_witness :
    (playPrevious 2 true
      { sampleState 1 with isShuffled := true,
                           audio := { src := some (Source.url (streamURL "b")),
                                      currentTime := 5 } }).currentSongIndex = 1 :=
  (playPrevious_restarts_track
    { sampleState 1 with isShuffled := true,
                         audio := { src := some (Source.url (streamURL "b")),
                                    currentTime := 5 } }
    2 true (by decide) (by norm_num)).2.2.1

/-! ## deleteSong: C3, C10 -/

/-- C3 at a failing input. Catalog `[A, B, C]`, a stored record for `A`, and the server
answers the `DELETE` with status 500: `fetch` resolves, so `deleteSong('a')` deletes the
stored record, drops `A` from the list and reports 'Song removed'. When the request
rejects instead, the record and the list are kept and 'Failed to delete song' is
reported. -/
theorem deleteSong_ignores_error_status :
    getFromIndexedDB (sampleState 0).db "a"
      = .resolved (some { songA with audioBlob := some [73, 68, 51] }) ∧
    getFromIndexedDB (deleteSong true (.resolved { status := 500 }) "a" (sampleState 0)).db "a"
      = .resolved none ∧
    (deleteSong true (.resolved { status := 500 }) "a" (sampleState 0)).songs
      = [songB, songC] ∧
    (deleteSong true (.resolved { status := 500 }) "a" (sampleState 0)).alerts
      = [("Song removed", "success")] ∧
    deleteSong true .rejected "a" (sampleState 0)
      = showAlert "Failed to delete song" "error" (sampleState 0) := by
  refine ⟨by decide, by decide, by decide, by decide, by rfl⟩

/-- C10 at a failing input. After startup with the catalog `[A]` and `playSong(0)`,
`currentSongIndex = 0`. `deleteSong('a')`, confirmed and successful, filters the list
to `[]` and then compares `songs[currentSongIndex]?.id` in the filtered list, so the
reset to -1 does not run: `currentSongIndex` stays 0 with an empty list. -/
theorem deleteSong_leaves_index_out_of_range :
    startedOnA.songs = [songA] ∧ startedOnA.currentSongIndex = 0 ∧
    (deleteSong true (.resolved { status := 200 }) "a" startedOnA).songs = [] ∧
    (deleteSong true (.resolved { status := 200 }) "a" startedOnA).currentSongIndex = 0 ∧
    ¬ ((deleteSong true (.resolved { status := 200 }) "a" startedOnA).currentSongIndex = -1 ∨
        (0 ≤ (deleteSong true (.resolved { status := 200 }) "a" startedOnA).currentSongIndex ∧
          (deleteSong true (.resolved { status := 200 }) "a" startedOnA).currentSongIndex
            < ((deleteSong true (.resolved { status := 200 }) "a" startedOnA).songs.length
                : Int))) := by
  refine ⟨by decide, by decide, by decide, by decide, by decide⟩

/-! ## loadSongs: C5 -/

/-- C5, as stated, fails: with an empty store, a previous in-memory list `[A]` and a
failing catalog fetch, `getAll` returns `[]` but the list after `loadSongs` is still
`[A]`. -/
theorem loadSongs_keeps_list_when_store_empty :
    getAllFromIndexedDB { available := true, records := [] } = .resolved [] ∧
    (loadSongs (fun _ => none) (fun _ => .rejected) .rejected
      { initialState { available := true, records := [] } with songs := [songA] }).1.songs
      = [songA] ∧
    (loadSongs (fun _ => none) (fun _ => .rejected) .rejected
      { initialState { available := true, records := [] } with songs := [songA] }).1.songs
      ≠ [] := by
  refine ⟨by decide, by decide, by decide⟩

/-- C5, amended. When the catalog fetch fails and `getAll` returns the records
`cached`, `loadSongs` completes without rejecting; the in-memory list becomes `cached`
when there is at least one record and is left as it was when there is none, so after
the call it equals `cached` whenever the previous list was empty, as it is at startup,
where `loadSongs` is called. -/
theorem loadSongs_falls_back_to_store (atob : String → Option (List Nat))
    (fetchBlob : String → Promise BlobData) (st : State) (cached : List Song)
    (hget : getAllFromIndexedDB st.db = .resolved cached) :
    (loadSongs atob fetchBlob .rejected st).2 = false ∧
    (cached ≠ [] → (loadSongs atob fetchBlob .rejected st).1.songs = cached) ∧
    (cached = [] → (loadSongs atob fetchBlob .rejected st).1 = st) ∧
    (st.songs = [] → (loadSongs atob fetchBlob .rejected st).1.songs = cached) := by
  have hrun : loadSongs atob fetchBlob .rejected st
      = if cached.length > 0 then ({ st with songs := cached }, false) else (st, false) := by
    simp only [loadSongs, loadSongsCatch, hget]
  rw [hrun]
  rcases cached with _ | ⟨c, cs⟩
  · refine ⟨by simp, by simp, by simp, ?_⟩
    intro h; simpa using h
  · simp

/-- C5 amended, at startup with an empty store: the list is empty and nothing is
raised. -/
theorem loadSongs_falls_back_to_store_witness :
    (loadSongs (fun _ => none) (fun _ => .rejected) .rejected
      (initialState { available := true, records := [] })).2 = false ∧
    (loadSongs (fun _ => none) (fun _ => .rejected) .rejected
      (initialState { available := true, records := [] })).1.songs = [] :=
  ⟨(loadSongs_falls_back_to_store (fun _ => none) (fun _ => .rejected)
      (initialState { available := true, records := [] }) [] (by rfl)).1,
   (loadSongs_falls_back_to_store (fun _ => none) (fun _ => .rejected)
      (initialState { available := true, records := [] }) [] (by rfl)).2.2.2 (by rfl)⟩

/-! ## Interleaved `playSong` calls: C4 -/

/-- C4, as stated, fails. Catalog `[A, B, C]` (`A` cached, `B` not), nothing selected.
`playSong(0)` starts, `playSong(1)` starts while the lookup of the first call is
outstanding, then the first lookup settles: with `currentSongIndex = 1` the audio source
is set to the source resolved for `A`, which is not the one resolved for `B`. -/
theorem stale_source_is_applied :
    (run { st := sampleState (-1), pending := [] } [.select 0, .select 1]).st.audio.src
      = none ∧
    (run { st := sampleState (-1), pending := [] } [.select 0, .select 1]).pending
      = [songA, songB] ∧
    (run { st := sampleState (-1), pending := [] }
      [.select 0, .select 1, .settle 0 true]).st.currentSongIndex = 1 ∧
    (run { st := sampleState (-1), pending := [] }
      [.select 0, .select 1, .settle 0 true]).st.audio.src
      = some (Source.objectURL [73, 68, 51]) ∧
    (playSong true 0 (sampleState (-1))).audio.src = some (Source.objectURL [73, 68, 51]) ∧
    (playSong true 1 (sampleState (-1))).audio.src = some (Source.url "/api/songs/b/audio") := by
  refine ⟨by decide, by decide, by decide, by decide, by decide, by decide⟩

theorem playSongResume_db (playOk : Bool) (song : Song) (st : State) :
    (playSongResume playOk song st).db = st.db := by
  unfold playSongResume
  cases getFromIndexedDB st.db song.id <;> cases playOk <;> simp [showAlert]

theorem playSongResume_songs (playOk : Bool) (song : Song) (st : State) :
    (playSongResume playOk song st).songs = st.songs := by
  unfold playSongResume
  cases getFromIndexedDB st.db song.id <;> cases playOk <;> simp [showAlert]

theorem getFromIndexedDB_available (db : Store) (h : db.available = true) (songId : String) :
    getFromIndexedDB db songId = .resolved (db.records.find? (fun r => r.id == songId)) := by
  simp [getFromIndexedDB, h]

theorem Settled_step (db : Store) (songs : List Song) (hav : db.available = true)
    (a : Tasks) (e : Event) (hinv : Settled db songs a)
    (he : ∀ k ok, e = .settle k ok → k = 0) : Settled db songs (step a e) := by
  obtain ⟨hdb, hsongs, hcur⟩ := hinv
  cases e with
  | select index =>
    simp only [step]
    by_cases hbad : index < 0 ∨ index ≥ (a.st.songs.length : Int)
    · have : playSongStart index a.st = none := by simp [playSongStart, hbad]
      rw [this]
      exact ⟨hdb, hsongs, hcur⟩
    · have hlt : index.toNat < a.st.songs.length := by omega
      have hsong : a.st.songs[index.toNat]? = some (a.st.songs[index.toNat]) :=
        List.getElem?_eq_getElem hlt
      rw [playSongStart_valid a.st index _ (by omega) (by omega) hsong]
      refine ⟨hdb, hsongs, Or.inr ⟨by simp only; omega, a.st.songs[index.toNat], ?_, ?_⟩⟩
      · simp only
        rw [← hsongs]; exact hsong
      · right; simp
  | settle k ok =>
    have hk : k = 0 := he k ok rfl
    subst hk
    simp only [step]
    cases hp : a.pending with
    | nil =>
      simp only [List.getElem?_nil]
      exact ⟨hdb, hsongs, hcur⟩
    | cons s rest =>
      simp only [List.getElem?_cons_zero, List.eraseIdx_cons_zero]
      refine ⟨by rw [playSongResume_db]; exact hdb,
        by rw [playSongResume_songs]; exact hsongs, ?_⟩
      rw [playSongResume_index]
      rcases hcur with ⟨_, hnil⟩ | ⟨h0, song, hsong, hcase⟩
      · rw [hp] at hnil; exact absurd hnil (by simp)
      · refine Or.inr ⟨h0, song, hsong, ?_⟩
        rcases hcase with ⟨hnil, _⟩ | hlast
        · rw [hp] at hnil; exact absurd hnil (by simp)
        · rw [hp] at hlast
          cases rest with
          | nil =>
            left
            have hs : s = song := by simpa using hlast
            refine ⟨rfl, ?_⟩
            rw [playSongResume_src ok s a.st _
              (getFromIndexedDB_available a.st.db (by rw [hdb]; exact hav) s.id), hdb, hs]
            rfl
          | cons t rest1 =>
            right
            rw [List.getLast?_cons_cons] at hlast
            exact hlast

theorem Settled_run (db : Store) (songs : List Song) (hav : db.available = true)
    (es : List Event) : ∀ a : Tasks, Settled db songs a → inIssueOrder es = true →
      Settled db songs (run a es) := by
  induction es with
  | nil => intro a h _; exact h
  | cons e es ih =>
    intro a h hord
    have hrun : run a (e :: es) = run (step a e) es := rfl
    rw [hrun]
    cases e with
    | select index =>
      simp only [inIssueOrder] at hord
      exact ih _ (Settled_step db songs hav a _ h (by intro k ok hk; cases hk)) hord
    | settle k ok =>
      simp only [inIssueOrder, Bool.and_eq_true, beq_iff_eq] at hord
      exact ih _ (Settled_step db songs hav a _ h
        (by intro k1 ok1 hk; cases hk; exact hord.1)) hord.2

/-- C4, amended. `playSong` does not invalidate a lookup in flight: when the lookup of
a suspended call settles, `audio.src` is set to the source resolved for the song that
call captured and `currentSongIndex` is left as the later call set it. When lookups
settle in the order the calls were issued, over a fixed catalog and an available store,
then in every state with no lookup pending and a song selected, `audio.src` is the
source resolved for `songs[currentSongIndex]`. -/
theorem settle_applies_captured_source (db : Store) (songs : List Song)
    (hav : db.available = true) :
    (∀ (a : Tasks) (k : Nat) (playOk : Bool) (song : Song),
      a.st.db = db → a.pending[k]? = some song →
      (step a (.settle k playOk)).st.audio.src = some (sourceFor db song) ∧
      (step a (.settle k playOk)).st.currentSongIndex = a.st.currentSongIndex) ∧
    (∀ es : List Event, inIssueOrder es = true →
      (run { st := { initialState db with songs := songs }, pending := [] } es).pending = [] →
      (run { st := { initialState db with songs := songs }, pending := [] }
          es).st.currentSongIndex ≠ -1 →
      ∃ song,
        songs[(run { st := { initialState db with songs := songs }, pending := [] }
          es).st.currentSongIndex.toNat]? = some song ∧
        (run { st := { initialState db with songs := songs }, pending := [] }
          es).st.audio.src = some (sourceFor db song)) := by
  constructor
  · intro a k playOk song hdb hk
    simp only [step, hk]
    refine ⟨?_, playSongResume_index playOk song a.st⟩
    rw [playSongResume_src playOk song a.st _
      (getFromIndexedDB_available a.st.db (by rw [hdb]; exact hav) song.id), hdb]
    rfl
  · intro es hord hpend hsel
    have hinit : Settled db songs
        { st := { initialState db with songs := songs }, pending := [] } :=
      ⟨rfl, rfl, Or.inl ⟨rfl, rfl⟩⟩
    obtain ⟨_, _, hcur⟩ := Settled_run db songs hav es _ hinit hord
    rcases hcur with ⟨hneg, _⟩ | ⟨_, song, hsong, hcase⟩
    · exact absurd hneg hsel
    · rcases hcase with ⟨_, hsrc⟩ | hlast
      · exact ⟨song, hsong, hsrc⟩
      · rw [hpend] at hlast; exact absurd hlast (by simp)

/-- C4 amended, on the catalog `[A, B, C]`: after `playSong(0)`, `playSong(1)` and both
lookups settling in issue order, the source is the one resolved for some
`songs[currentSongIndex]`. -/
theorem settle_applies_captured_source_witness :
    ∃ song,
      [songA, songB, songC][(run
        { st := { initialState (sampleState (-1)).db with songs := [songA, songB, songC] },
          pending := [] }
        [.select 0, .select 1, .settle 0 true, .settle 0 true]).st.currentSongIndex.toNat]?
        = some song ∧
      (run
        { st := { initialState (sampleState (-1)).db with songs := [songA, songB, songC] },
          pending := [] }
        [.select 0, .select 1, .settle 0 true, .settle 0 true]).st.audio.src
        = some (sourceFor (sampleState (-1)).db song) :=
  (settle_applies_captured_source (sampleState (-1)).db [songA, songB, songC] (by rfl)).2
    [.select 0, .select 1, .settle 0 true, .settle 0 true]
    (by decide) (by decide) (by decide)

/-! ## Service worker: C6 -/

namespace ServiceWorker

theorem includes_iff (s t : String) : includes s t = true ↔ t.data <:+: s.data := by
  simp [includes]

theorem endsWith_iff (s t : String) : endsWith s t = true ↔ t.data <:+ s.data := by
  simp [endsWith]

theorem stream_includes_api (origin id : String) :
    includes (origin ++ streamURL id) "/api/songs/" = true := by
  rw [includes_iff]
  exact ⟨origin.data, id.data ++ "/audio".data, by simp [streamURL, String.data_append]⟩

theorem stream_includes_audio (origin id : String) :
    includes (origin ++ streamURL id) "/audio" = true := by
  rw [includes_iff]
  exact ⟨origin.data ++ "/api/songs/".data ++ id.data, [],
    by simp [streamURL, String.data_append]⟩

theorem blob_not_endsWith_slash (origin id : String) :
    endsWith (origin ++ blobURL id) "/" = false := by
  rw [← Bool.not_eq_true, endsWith_iff]
  intro h
  have hd : (origin ++ blobURL id).data
      = (origin.data ++ "/api/songs/".data ++ id.data ++ ['/', 'b', 'l', 'o']) ++ ['b'] := by
    simp [blobURL, String.data_append]
  rw [hd] at h
  obtain ⟨pre, hpre⟩ := h
  have hsuffix : "/".data = ['b'] := (List.append_inj' hpre (by rfl)).2
  exact absurd hsuffix (by decide)

end ServiceWorker

/-- C6, as stated, fails for the audio-blob URL: for the song identifier `a` the
request for `https://player.example/api/songs/a/blob` is answered through
`respondWith`, after the cache lookup. -/
theorem blob_request_is_intercepted :
    ServiceWorker.onFetch [] (.resolved { status := 200, type := "basic", body := "" })
      { url := "https://player.example" ++ blobURL "a", method := "GET", mode := "cors" }
      = .respondWith (some { status := 200, type := "basic", body := "" }) [] ∧
    ServiceWorker.onFetch [] (.resolved { status := 200, type := "basic", body := "" })
      { url := "https://player.example" ++ blobURL "a", method := "GET", mode := "cors" }
      ≠ .notIntercepted := by
  refine ⟨by decide, by decide⟩

/-- C6, amended. For every song identifier the `fetch` handler returns without calling
`respondWith` for a request to the audio-stream URL `/api/songs/<id>/audio`. A request
to the audio-blob URL `/api/songs/<id>/blob` whose URL does not contain `/audio` is
passed to `respondWith`, so the cache lookup runs; if the URL does not contain
`/static/` either, the cache write does not run: the cache storage is unchanged. -/
theorem stream_bypasses_blob_is_looked_up (cache : ServiceWorker.Cache)
    (net : Promise ServiceWorker.Response) (origin id method mode : String) :
    ServiceWorker.onFetch cache net
      { url := origin ++ streamURL id, method := method, mode := mode } = .notIntercepted ∧
    (ServiceWorker.includes (origin ++ blobURL id) "/audio" = false →
      ServiceWorker.onFetch cache net
        { url := origin ++ blobURL id, method := method, mode := mode } ≠ .notIntercepted ∧
      (ServiceWorker.includes (origin ++ blobURL id) "/static/" = false →
        ∃ response, ServiceWorker.onFetch cache net
          { url := origin ++ blobURL id, method := method, mode := mode }
          = .respondWith response cache)) := by
  constructor
  · simp [ServiceWorker.onFetch, ServiceWorker.stream_includes_api,
      ServiceWorker.stream_includes_audio]
  · intro haudio
    have hcall : ∀ (P : ServiceWorker.Handled → Prop),
        (∀ response c, P (.respondWith response c)) →
        P (ServiceWorker.onFetch cache net
          { url := origin ++ blobURL id, method := method, mode := mode }) := by
      intro P hP
      unfold ServiceWorker.onFetch
      simp only [haudio, Bool.and_false, Bool.false_eq_true, if_false]
      split
      · exact hP _ _
      · split
        · split <;> exact hP _ _
        · split
          · exact hP _ _
          · split <;> exact hP _ _
    refine ⟨hcall (fun h => h ≠ .notIntercepted) (fun _ _ => by simp), ?_⟩
    intro hstatic
    unfold ServiceWorker.onFetch
    simp only [haudio, Bool.and_false, Bool.false_eq_true, if_false, hstatic,
      ServiceWorker.blob_not_endsWith_slash, Bool.or_self, and_false]
    split
    · exact ⟨_, rfl⟩
    · split
      · split <;> exact ⟨_, rfl⟩
      · split <;> exact ⟨_, rfl⟩

/-- C6 amended, for the identifier `a`: the blob request is passed to `respondWith`. -/
theorem stream_bypasses_blob_is_looked_up_witness :
    ServiceWorker.onFetch [] .rejected
      { url := "https://player.example" ++ blobURL "a", method := "GET", mode := "cors" }
      ≠ .notIntercepted :=
  ((stream_bypasses_blob_is_looked_up [] .rejected "https://player.example" "a" "GET" "cors").2
    (by decide)).1

end AudioExtractor
